import Mathlib

/-!
Shallow embedding of the Covey.Town private-spaces core:
the space state machine (`CoveySpaceController.ts`) and the request
handlers for claiming and joining spaces.  Each TypeScript method is
translated into a pure Lean function; the mutable controller state is
threaded explicitly as a `SpaceState`, and the parent town controller's
player directory (the identity environment) is passed as a list of
players at each call, mirroring `this._coveyTownController.players`.
-/

namespace CoveySpace

/-- Modelled from the spec: an identity is an opaque record with a stable
unique identifier and a display label (the `Player` class itself is outside
the embedded sources; only its `id` field is consulted by the space logic). -/
structure Player where
  id : String
  userName : String
deriving DecidableEq

/-- The identity environment: the parent town controller's current list of
players, i.e. `this._coveyTownController.players`. -/
abbrev Env := List Player

/-- The mutable fields of a `CoveySpaceController`. -/
structure SpaceState where
  players : List Player
  coveySpaceID : String
  spaceHostID : Option String
  presenterID : Option String
  whitelist : List Player
  isPrivate : Bool
deriving DecidableEq

/-- The constructor: a fresh space has no players, no host, no presenter,
an empty whitelist and is not private. -/
def initialSpace (coveySpaceID : String) : SpaceState :=
  { players := [], coveySpaceID := coveySpaceID, spaceHostID := none,
    presenterID := none, whitelist := [], isPrivate := false }

/-- `playerFromID`: finds the player object with the given ID in the town
controller's player list. -/
def playerFromID (env : Env) (playerID : String) : Option Player :=
  env.find? (fun p => p.id == playerID)

/-- `isPlayerInSpace`: whether some player with this ID is in the space. -/
def isPlayerInSpace (s : SpaceState) (playerID : String) : Bool :=
  (s.players.find? (fun p => p.id == playerID)).isSome

/-- `publicizeSpace`: reset everything to how a public space would be. -/
def publicizeSpace (s : SpaceState) : SpaceState :=
  { s with isPrivate := false, presenterID := none, spaceHostID := none,
           whitelist := [] }

/-- `addPlayer`: adds a player to this space, returning the new state and
the boolean success flag. -/
def addPlayer (env : Env) (s : SpaceState) (newPlayerID : String) :
    SpaceState × Bool :=
  match playerFromID env newPlayerID with
  | none => (s, false)
  | some newPlayer =>
    if s.players.contains newPlayer then
      (s, true)
    else if s.isPrivate = false then
      ({ s with players := s.players ++ [newPlayer] }, true)
    else match s.spaceHostID with
      | some hostID =>
        if (playerFromID env hostID).isNone then
          let s1 := publicizeSpace s
          ({ s1 with players := s1.players ++ [newPlayer] }, true)
        else if s.whitelist.contains newPlayer || s.spaceHostID == some newPlayerID then
          ({ s with players := s.players ++ [newPlayer] }, true)
        else
          (s, false)
      | none => (s, false)

/-- `removePlayer`: remove the player specified from the space (only when
the ID resolves in the town's player list). -/
def removePlayer (env : Env) (s : SpaceState) (playerID : String) : SpaceState :=
  match playerFromID env playerID with
  | none => s
  | some player =>
    { s with players := s.players.filter (fun p => p.id != player.id) }

/-- `addPlayerToWhiteList`: adds a resolvable, not yet listed player to the
whitelist (the TypeScript method returns `this._whitelist`, which is the
`whitelist` field of the state returned here). -/
def addPlayerToWhiteList (env : Env) (s : SpaceState) (newPlayerID : String) :
    SpaceState :=
  match playerFromID env newPlayerID with
  | none => s
  | some newPlayer =>
    if s.whitelist.contains newPlayer then s
    else { s with whitelist := s.whitelist ++ [newPlayer] }

/-- `removePlayerFromWhiteList`: removes a resolvable player from the
whitelist. -/
def removePlayerFromWhiteList (env : Env) (s : SpaceState) (playerID : String) :
    SpaceState :=
  match playerFromID env playerID with
  | none => s
  | some player =>
    { s with whitelist := s.whitelist.filter (fun p => p.id != player.id) }

/-- `disconnectAllPlayersExceptP`: when `p` resolves, the player list becomes
just that player; otherwise nothing happens. -/
def disconnectAllPlayersExceptP (env : Env) (s : SpaceState) (p : String) :
    SpaceState :=
  match playerFromID env p with
  | none => s
  | some player => { s with players := [player] }

/-- `updateSpaceHost`: changes the host for this space (used for claiming
and disbanding a space).  The `claimSpace` notification to the town
controller is an external fire-and-forget side effect and does not touch
the space state. -/
def updateSpaceHost (env : Env) (s : SpaceState) (newHostID : Option String) :
    SpaceState × Bool :=
  match newHostID with
  | some nh =>
    match s.spaceHostID with
    | none =>
      let s1 := { s with spaceHostID := some nh }
      let s2 := disconnectAllPlayersExceptP env s1 nh
      ({ s2 with isPrivate := true }, true)
    | some _ => (s, false)
  | none => (publicizeSpace s, true)

/-- `updatePresenter`: stores the new presenter ID verbatim. -/
def updatePresenter (s : SpaceState) (newPresenterID : Option String) :
    SpaceState :=
  { s with presenterID := newPresenterID }

/-- `updateWhitelist`: replaces the whitelist with the players resolved
from the given IDs, in input order, silently dropping IDs that do not
resolve. -/
def updateWhitelist (env : Env) (s : SpaceState) (newWhitelist : List String) :
    SpaceState :=
  { s with whitelist := newWhitelist.filterMap (playerFromID env) }

/-- One state-machine operation together with the IDs it was called with. -/
inductive SpaceOp where
  | addPlayer (pid : String)
  | removePlayer (pid : String)
  | updateSpaceHost (newHostID : Option String)
  | updatePresenter (pid : Option String)
  | updateWhitelist (pids : List String)
  | addPlayerToWhiteList (pid : String)
  | removePlayerFromWhiteList (pid : String)
  | publicizeSpace

/-- Apply one operation, under the identity environment current at the time
of the call, to the space state (booleans returned to the caller are
discarded here). -/
def applyOp (env : Env) (op : SpaceOp) (s : SpaceState) : SpaceState :=
  match op with
  | .addPlayer pid => (addPlayer env s pid).1
  | .removePlayer pid => removePlayer env s pid
  | .updateSpaceHost nh => (updateSpaceHost env s nh).1
  | .updatePresenter pid => updatePresenter s pid
  | .updateWhitelist pids => updateWhitelist env s pids
  | .addPlayerToWhiteList pid => addPlayerToWhiteList env s pid
  | .removePlayerFromWhiteList pid => removePlayerFromWhiteList env s pid
  | .publicizeSpace => publicizeSpace s

/-- Run a sequence of operations; each step carries the identity
environment that was current when it ran. -/
def runOps (ops : List (Env × SpaceOp)) (s : SpaceState) : SpaceState :=
  match ops with
  | [] => s
  | eo :: rest => runOps rest (applyOp eo.1 eo.2 s)

/-- The privacy invariant: the stored `isPrivate` flag is set exactly when
a host is stored. -/
def hostPrivacyInvariant (s : SpaceState) : Prop :=
  s.isPrivate = true ↔ s.spaceHostID ≠ none

/-- The uniform response envelope `{ isOK, message?, response? }`. -/
structure ResponseEnvelope (T : Type) where
  isOK : Bool
  message : Option String
  response : Option T
deriving DecidableEq

/-- Payload sent by a client to claim a space. -/
structure SpaceClaimRequest where
  coveyTownID : String
  coveySpaceID : String
  newHostPlayerID : String

/-- The format of a request to join a space. -/
structure SpaceJoinRequest where
  coveyTownID : String
  playerID : String
  coveySpaceID : String

/-- The payload of a successful join response. -/
structure SpaceJoinResponse where
  currentPlayers : List Player
  currentHostID : Option String
  currentPresenterID : Option String
deriving DecidableEq

/-- `spaceClaimHandler`: looks the space up in the spaces store; when found
it calls `updateSpaceHost` with the requested host, discards the returned
boolean, and answers `isOK := true` with a confirmation message.  The
store lookup (`CoveySpacesStore.getControllerForSpace`) is modelled as a
function from space IDs to optional space states; the handler returns the
envelope together with the updated state of the space it mutated. -/
def spaceClaimHandler (env : Env) (lookup : String → Option SpaceState)
    (req : SpaceClaimRequest) : ResponseEnvelope Unit × Option SpaceState :=
  match lookup req.coveySpaceID with
  | none =>
    ({ isOK := false, message := some "Error: No such space", response := none },
     none)
  | some ctrl =>
    let r := updateSpaceHost env ctrl (some req.newHostPlayerID)
    ({ isOK := true,
       message := some ("The host was update to be player with ID "
                        ++ req.newHostPlayerID),
       response := none },
     some r.1)

/-- Modelled from the spec: the environment-level membership side effect
`coveyTownController.joinSpace(playerID, coveySpaceID)` lives in
`CoveyTownController`, which is outside the embedded sources; it is
recorded as an abstract effect-trace entry rather than interpreted. -/
inductive TownEffect where
  | joinSpace (playerID : String) (coveySpaceID : String)
deriving DecidableEq

/-- `spaceJoinHandler`: resolves the town (modelled as an existence
predicate for `CoveyTownsStore.getControllerForTown`), then invokes the
town controller's `joinSpace` (recorded in the returned effect trace),
then resolves the space and either fails or returns the current players,
host and presenter. -/
def spaceJoinHandler (townExists : String → Bool)
    (lookup : String → Option SpaceState) (req : SpaceJoinRequest) :
    ResponseEnvelope SpaceJoinResponse × List TownEffect :=
  if townExists req.coveyTownID = false then
    ({ isOK := false, message := some "Error: No such town", response := none },
     [])
  else
    let effects := [TownEffect.joinSpace req.playerID req.coveySpaceID]
    match lookup req.coveySpaceID with
    | none =>
      ({ isOK := false, message := some "Error: No such space", response := none },
       effects)
    | some ctrl =>
      ({ isOK := true, message := none,
         response := some { currentPlayers := ctrl.players,
                            currentHostID := ctrl.spaceHostID,
                            currentPresenterID := ctrl.presenterID } },
       effects)

end CoveySpace

namespace CoveySpace

/-! Concrete states used by witnesses and counterexamples. -/

/-- A town with one player `h` and one player `a`. -/
def twoPlayerEnv : Env := [⟨"h", "H"⟩, ⟨"a", "A"⟩]

/-- A private space hosted by `h`, with `h` the only member and an empty
whitelist (the state reached by `updateSpaceHost (some "h")` on a fresh
space while `h` is in the town). -/
def hostedSpace : SpaceState :=
  (updateSpaceHost twoPlayerEnv (initialSpace "s1") (some "h")).1

/-- A public space that already has a presenter set. -/
def publicWithPresenter : SpaceState :=
  updatePresenter (initialSpace "s1") (some "x")

/-- A fresh space in which a player `b` is a member. -/
def spaceWithB : SpaceState :=
  { initialSpace "s1" with players := [⟨"b", "B"⟩] }

/-- A fresh space in which a player `a` is a member. -/
def spaceWithA : SpaceState :=
  { initialSpace "s1" with players := [⟨"a", "A"⟩] }

/-! Helper lemmas. -/

/-- A player found by `playerFromID` carries the ID it was looked up by. -/
lemma playerFromID_id {env : Env} {pid : String} {p : Player}
    (h : playerFromID env pid = some p) : p.id = pid := by
  have := List.find?_some h
  exact eq_of_beq this

/-- A player found by `playerFromID` is in the environment. -/
lemma playerFromID_mem {env : Env} {pid : String} {p : Player}
    (h : playerFromID env pid = some p) : p ∈ env :=
  List.mem_of_find?_eq_some h

/-- `disconnectAllPlayersExceptP` only touches the player list. -/
lemma disconnect_frame (env : Env) (s : SpaceState) (p : String) :
    (disconnectAllPlayersExceptP env s p).spaceHostID = s.spaceHostID
    ∧ (disconnectAllPlayersExceptP env s p).isPrivate = s.isPrivate
    ∧ (disconnectAllPlayersExceptP env s p).presenterID = s.presenterID
    ∧ (disconnectAllPlayersExceptP env s p).whitelist = s.whitelist := by
  unfold disconnectAllPlayersExceptP
  rcases hf : playerFromID env p with _ | q <;> simp [hf]

/-- A publicized space satisfies the privacy invariant. -/
lemma publicize_inv (s : SpaceState) : hostPrivacyInvariant (publicizeSpace s) := by
  simp [hostPrivacyInvariant, publicizeSpace]

/-- `addPlayer` either leaves privacy flag and host unchanged or fully
publicizes the space. -/
lemma addPlayer_fields (env : Env) (s : SpaceState) (pid : String) :
    ((addPlayer env s pid).1.isPrivate = s.isPrivate
      ∧ (addPlayer env s pid).1.spaceHostID = s.spaceHostID)
    ∨ ((addPlayer env s pid).1.isPrivate = false
      ∧ (addPlayer env s pid).1.spaceHostID = none) := by
  unfold addPlayer
  rcases hf : playerFromID env pid with _ | p
  · left; exact ⟨rfl, rfl⟩
  · dsimp only
    split
    · left; exact ⟨rfl, rfl⟩
    · split
      · left; exact ⟨rfl, rfl⟩
      · split
        · split
          · right; exact ⟨rfl, rfl⟩
          · split
            · left; exact ⟨rfl, rfl⟩
            · left; exact ⟨rfl, rfl⟩
        · left; exact ⟨rfl, rfl⟩

/-- Transfer of the privacy invariant along the field description of
`addPlayer_fields`. -/
lemma inv_of_fields {s t : SpaceState} (h : hostPrivacyInvariant s)
    (hf : (t.isPrivate = s.isPrivate ∧ t.spaceHostID = s.spaceHostID)
      ∨ (t.isPrivate = false ∧ t.spaceHostID = none)) :
    hostPrivacyInvariant t := by
  unfold hostPrivacyInvariant at h ⊢
  rcases hf with ⟨h1, h2⟩ | ⟨h1, h2⟩ <;> rw [h1, h2] <;> simp_all

/-- `updateSpaceHost` preserves the privacy invariant. -/
lemma updateSpaceHost_inv (env : Env) (s : SpaceState) (nh : Option String)
    (h : hostPrivacyInvariant s) :
    hostPrivacyInvariant (updateSpaceHost env s nh).1 := by
  unfold updateSpaceHost
  rcases nh with _ | nhid
  · exact publicize_inv s
  · rcases hh : s.spaceHostID with _ | old
    · have hd := disconnect_frame env { s with spaceHostID := some nhid } nhid
      unfold hostPrivacyInvariant
      simp [hd.1]
    · exact h

/-- `applyOp` preserves the privacy invariant. -/
lemma applyOp_inv (env : Env) (op : SpaceOp) (s : SpaceState)
    (h : hostPrivacyInvariant s) : hostPrivacyInvariant (applyOp env op s) := by
  cases op with
  | addPlayer pid => exact inv_of_fields h (addPlayer_fields env s pid)
  | removePlayer pid =>
    dsimp only [applyOp]
    unfold removePlayer
    rcases hf : playerFromID env pid with _ | p
    · exact h
    · exact h
  | updateSpaceHost nh => exact updateSpaceHost_inv env s nh h
  | updatePresenter pid => exact h
  | updateWhitelist pids => exact h
  | addPlayerToWhiteList pid =>
    dsimp only [applyOp]
    unfold addPlayerToWhiteList
    rcases hf : playerFromID env pid with _ | p
    · exact h
    · dsimp only
      split
      · exact h
      · exact h
  | removePlayerFromWhiteList pid =>
    dsimp only [applyOp]
    unfold removePlayerFromWhiteList
    rcases hf : playerFromID env pid with _ | p
    · exact h
    · exact h
  | publicizeSpace => exact publicize_inv s

/-- Runs of operations preserve the privacy invariant. -/
lemma runOps_inv (ops : List (Env × SpaceOp)) (s : SpaceState)
    (h : hostPrivacyInvariant s) : hostPrivacyInvariant (runOps ops s) := by
  induction ops generalizing s with
  | nil => exact h
  | cons eo rest ih => exact ih _ (applyOp_inv eo.1 eo.2 s h)

end CoveySpace

namespace CoveySpace

/-- Claim C1: starting from a freshly constructed space, after every
sequence of state-machine operations (each run under the identity
environment current at its call), the stored `isPrivate` flag is true
if and only if the stored `spaceHostID` is non-null. -/
theorem claim_C1_privacy_invariant (ops : List (Env × SpaceOp)) (sid : String) :
    hostPrivacyInvariant (runOps ops (initialSpace sid)) := by
  apply runOps_inv
  simp [hostPrivacyInvariant, initialSpace]

/-- Claim C9: `updateSpaceHost` with a non-null new host on a space that
already has a host returns `false` and changes nothing (host, members,
whitelist and presenter all keep their values). -/
theorem claim_C9_private_claim_rejected (env : Env) (s : SpaceState)
    (h pid : String) (hhost : s.spaceHostID = some h) :
    updateSpaceHost env s (some pid) = (s, false) := by
  simp [updateSpaceHost, hhost]

/-- Witness for C9 at a concrete hosted space. -/
theorem claim_C9_witness :
    hostedSpace.spaceHostID = some "h"
    ∧ updateSpaceHost twoPlayerEnv hostedSpace (some "a") = (hostedSpace, false) :=
  ⟨by decide, claim_C9_private_claim_rejected twoPlayerEnv hostedSpace "h" "a" (by decide)⟩

/-- Claim C10: when the town exists but the space does not, the join
handler returns an `isOK := false` envelope with message
`Error: No such space` while the environment-level `joinSpace` side effect
has already been emitted. -/
theorem claim_C10_join_not_atomic (townExists : String → Bool)
    (lookup : String → Option SpaceState) (req : SpaceJoinRequest)
    (htown : townExists req.coveyTownID = true)
    (hspace : lookup req.coveySpaceID = none) :
    spaceJoinHandler townExists lookup req
      = ({ isOK := false, message := some "Error: No such space", response := none },
         [TownEffect.joinSpace req.playerID req.coveySpaceID]) := by
  simp [spaceJoinHandler, htown, hspace]

/-- Witness for C10 with a one-town store holding no spaces. -/
theorem claim_C10_witness :
    spaceJoinHandler (fun _ => true) (fun _ => none) ⟨"t1", "p1", "s1"⟩
      = ({ isOK := false, message := some "Error: No such space", response := none },
         [TownEffect.joinSpace "p1" "s1"]) :=
  claim_C10_join_not_atomic (fun _ => true) (fun _ => none) ⟨"t1", "p1", "s1"⟩ rfl rfl

/-- Counterexample to C8 as stated: with an empty identity environment, a
player with ID `a` is a member, yet `removePlayer "a"` leaves the space
unchanged (the ID no longer resolves, so the eviction is skipped). -/
theorem claim_C8_counterexample :
    (⟨"a", "A"⟩ : Player) ∈ spaceWithA.players
    ∧ removePlayer [] spaceWithA "a" = spaceWithA := by
  constructor
  · decide
  · rfl

/-- Claim C8 amended: `removePlayer` never touches `spaceHostID`,
`presenterID` or `whitelist`; it filters the members with the evicted ID
out of `players` when the ID resolves in the environment, and is a no-op
(even for present members) when the ID does not resolve. -/
theorem claim_C8_evict_frame (env : Env) (s : SpaceState) (pid : String) :
    (removePlayer env s pid).spaceHostID = s.spaceHostID
    ∧ (removePlayer env s pid).presenterID = s.presenterID
    ∧ (removePlayer env s pid).whitelist = s.whitelist
    ∧ (removePlayer env s pid).players
        = (match playerFromID env pid with
           | none => s.players
           | some p => s.players.filter (fun q => q.id != p.id)) := by
  unfold removePlayer
  rcases hf : playerFromID env pid with _ | p <;> simp [hf]

/-- Counterexample to C7 as stated: duplicates in the input are not
collapsed — a duplicated resolvable ID yields two equal whitelist
entries. -/
theorem claim_C7_counterexample :
    (updateWhitelist [⟨"a", "A"⟩] (initialSpace "s1") ["a", "a"]).whitelist
      = [⟨"a", "A"⟩, ⟨"a", "A"⟩]
    ∧ (updateWhitelist [⟨"a", "A"⟩] (initialSpace "s1") ["a", "a"]).whitelist.length ≠ 1 := by
  constructor
  · decide
  · decide

/-- Claim C7 amended: after `updateWhitelist`, an ID is among the IDs of
the stored whitelist exactly when it occurs in the input list and
resolves in the environment (so, as a set, the result is the resolvable
subset of the input, independent of input order); duplicated resolvable
input IDs however yield duplicated entries rather than one. -/
theorem claim_C7_whitelist_roundtrip (env : Env) (s : SpaceState)
    (l : List String) (pid : String) :
    pid ∈ (updateWhitelist env s l).whitelist.map Player.id
      ↔ (pid ∈ l ∧ (playerFromID env pid).isSome) := by
  simp only [updateWhitelist, List.mem_map, List.mem_filterMap]
  constructor
  · rintro ⟨p, ⟨a, hal, ha⟩, hpid⟩
    have hid := playerFromID_id ha
    rw [← hpid, hid] at *
    exact ⟨hal, by rw [ha]; rfl⟩
  · rintro ⟨hl, hsome⟩
    obtain ⟨p, hp⟩ := Option.isSome_iff_exists.mp hsome
    exact ⟨p, ⟨pid, hl, hp⟩, playerFromID_id hp⟩

end CoveySpace

namespace CoveySpace

/-- Claim C2: on a private space (host stored, privacy invariant holding),
for a resolvable identity that is not already a member, `addPlayer`
succeeds exactly when the current host no longer resolves, or the identity
is the host, or the resolved player is whitelisted; whenever it fails the
state is unchanged. -/
theorem claim_C2_private_admission (env : Env) (s : SpaceState)
    (h pid : String) (p : Player)
    (hinv : hostPrivacyInvariant s)
    (hhost : s.spaceHostID = some h)
    (hres : playerFromID env pid = some p)
    (hmem : s.players.contains p = false) :
    ((addPlayer env s pid).2 = true
      ↔ (playerFromID env h = none ∨ pid = h ∨ s.whitelist.contains p = true))
    ∧ ((addPlayer env s pid).2 = false → (addPlayer env s pid).1 = s) := by
  have hpriv : s.isPrivate = true := by
    rw [hostPrivacyInvariant] at hinv
    exact hinv.mpr (by simp [hhost])
  simp only [addPlayer, hres, hmem, hpriv, hhost]
  rcases hcase : playerFromID env h with _ | q
  · simp [hcase]
  · simp [hcase]
    by_cases hc : p ∈ s.whitelist ∨ h = pid <;> simp [hc] <;> tauto

/-- Witness for C2: on the concrete hosted space, admitting the
non-whitelisted, non-host player `a` fails and changes nothing. -/
theorem claim_C2_witness :
    ((addPlayer twoPlayerEnv hostedSpace "a").2 = true
      ↔ (playerFromID twoPlayerEnv "h" = none ∨ "a" = "h"
          ∨ hostedSpace.whitelist.contains ⟨"a", "A"⟩ = true))
    ∧ ((addPlayer twoPlayerEnv hostedSpace "a").2 = false
        → (addPlayer twoPlayerEnv hostedSpace "a").1 = hostedSpace) :=
  claim_C2_private_admission twoPlayerEnv hostedSpace "h" "a" ⟨"a", "A"⟩
    (by simp [hostPrivacyInvariant, hostedSpace]; decide)
    (by decide) (by decide) (by decide)

/-- Counterexample to C3 as stated: claiming an empty-environment space by
the unresolvable identity `a` succeeds and marks the space private, but
the member `b` is not evicted. -/
theorem claim_C3_counterexample :
    (updateSpaceHost [] spaceWithB (some "a")).2 = true
    ∧ (updateSpaceHost [] spaceWithB (some "a")).1.spaceHostID = some "a"
    ∧ (updateSpaceHost [] spaceWithB (some "a")).1.isPrivate = true
    ∧ (updateSpaceHost [] spaceWithB (some "a")).1.players = [⟨"b", "B"⟩] := by
  refine ⟨by decide, by decide, by decide, by decide⟩

/-- Claim C3 amended: on a space with no host, claiming by an identity
that resolves to a player `p` succeeds, stores the host ID, marks the
space private and replaces the member list by `[p]`, so every remaining
member carries the claiming ID; when the claiming identity does not
resolve, the claim still succeeds and privatizes but leaves the member
list untouched. -/
theorem claim_C3_claim_from_public (env : Env) (s : SpaceState)
    (pid : String) (p : Player)
    (hpub : s.spaceHostID = none) (hres : playerFromID env pid = some p) :
    updateSpaceHost env s (some pid)
      = ({ s with spaceHostID := some pid, isPrivate := true, players := [p] }, true)
    ∧ ∀ q ∈ (updateSpaceHost env s (some pid)).1.players, q.id = pid := by
  have heq : updateSpaceHost env s (some pid)
      = ({ s with spaceHostID := some pid, isPrivate := true, players := [p] }, true) := by
    simp [updateSpaceHost, disconnectAllPlayersExceptP, hpub, hres]
  refine ⟨heq, ?_⟩
  rw [heq]
  intro q hq
  have : q = p := by simpa using hq
  rw [this]
  exact playerFromID_id hres

/-- Witness for C3 amended: player `h` claims a fresh space. -/
theorem claim_C3_witness :
    updateSpaceHost twoPlayerEnv (initialSpace "s1") (some "h")
      = ({ (initialSpace "s1") with
           spaceHostID := some "h", isPrivate := true,
           players := [⟨"h", "H"⟩] }, true)
    ∧ ∀ q ∈ (updateSpaceHost twoPlayerEnv (initialSpace "s1") (some "h")).1.players,
        q.id = "h" :=
  claim_C3_claim_from_public twoPlayerEnv (initialSpace "s1") "h" ⟨"h", "H"⟩
    (by decide) (by decide)

/-- Counterexample to C4 as stated: releasing the host of a public space
that has a presenter is not a no-op — the presenter is cleared. -/
theorem claim_C4_counterexample :
    publicWithPresenter.spaceHostID = none
    ∧ (updateSpaceHost [] publicWithPresenter none).2 = true
    ∧ (updateSpaceHost [] publicWithPresenter none).1 ≠ publicWithPresenter := by
  refine ⟨by decide, by decide, by decide⟩

/-- Claim C4 amended: `updateSpaceHost` with a null host always returns
true and unconditionally publicizes — host, presenter and whitelist are
cleared whatever the previous state (so on a public space it is a no-op
only when presenter and whitelist were already clear) — and afterwards
`addPlayer` succeeds for every identity resolvable in the then-current
environment. -/
theorem claim_C4_release_host (env env2 : Env) (s : SpaceState)
    (pid : String) (p : Player) (hres : playerFromID env2 pid = some p) :
    updateSpaceHost env s none = (publicizeSpace s, true)
    ∧ (publicizeSpace s).spaceHostID = none
    ∧ (publicizeSpace s).presenterID = none
    ∧ (publicizeSpace s).whitelist = []
    ∧ (addPlayer env2 (updateSpaceHost env s none).1 pid).2 = true := by
  refine ⟨rfl, rfl, rfl, rfl, ?_⟩
  show (addPlayer env2 (publicizeSpace s) pid).2 = true
  simp only [addPlayer, hres]
  split
  · rfl
  · simp [publicizeSpace]

/-- Witness for C4 amended: release the host of the concrete hosted space,
then player `a` can join. -/
theorem claim_C4_witness :
    updateSpaceHost twoPlayerEnv hostedSpace none = (publicizeSpace hostedSpace, true)
    ∧ (publicizeSpace hostedSpace).spaceHostID = none
    ∧ (publicizeSpace hostedSpace).presenterID = none
    ∧ (publicizeSpace hostedSpace).whitelist = []
    ∧ (addPlayer twoPlayerEnv (updateSpaceHost twoPlayerEnv hostedSpace none).1 "a").2
        = true :=
  claim_C4_release_host twoPlayerEnv twoPlayerEnv hostedSpace "a" ⟨"a", "A"⟩ (by decide)

/-- Counterexample to C5 as stated: with an empty identity environment the
ID `ghost` resolves to nothing, yet `updateSpaceHost` stores it as host
(returning true) and `updatePresenter` stores it as presenter. -/
theorem claim_C5_counterexample :
    playerFromID [] "ghost" = none
    ∧ (updateSpaceHost [] (initialSpace "s1") (some "ghost")).1.spaceHostID = some "ghost"
    ∧ (updateSpaceHost [] (initialSpace "s1") (some "ghost")).2 = true
    ∧ (updatePresenter (initialSpace "s1") (some "ghost")).presenterID = some "ghost" := by
  refine ⟨by decide, by decide, by decide, by decide⟩

/-- Claim C5 amended: the membership and whitelist operations
(`addPlayer`, `addPlayerToWhiteList`, `removePlayerFromWhiteList`,
`updateWhitelist`) reject an identifier that does not resolve — nothing
is stored and `addPlayer` reports failure — whereas `updateSpaceHost` and
`updatePresenter` store the given identifier without any resolvability
check. -/
theorem claim_C5_unresolved_rejected (env : Env) (s : SpaceState)
    (pid : String) (l : List String) (hres : playerFromID env pid = none) :
    addPlayer env s pid = (s, false)
    ∧ addPlayerToWhiteList env s pid = s
    ∧ removePlayerFromWhiteList env s pid = s
    ∧ (∀ q ∈ (updateWhitelist env s l).whitelist, q.id ≠ pid) := by
  refine ⟨?_, ?_, ?_, ?_⟩
  · simp [addPlayer, hres]
  · simp [addPlayerToWhiteList, hres]
  · simp [removePlayerFromWhiteList, hres]
  · intro q hq hqid
    simp only [updateWhitelist, List.mem_filterMap] at hq
    obtain ⟨a, _, ha⟩ := hq
    have : q.id = a := playerFromID_id ha
    rw [hqid] at this
    rw [← this] at ha
    rw [ha] at hres
    exact Option.some_ne_none q hres

/-- Witness for C5 amended: the unresolvable ID `ghost` is rejected by all
four membership/whitelist operations on a fresh space. -/
theorem claim_C5_witness :
    addPlayer [] (initialSpace "s1") "ghost" = (initialSpace "s1", false)
    ∧ addPlayerToWhiteList [] (initialSpace "s1") "ghost" = initialSpace "s1"
    ∧ removePlayerFromWhiteList [] (initialSpace "s1") "ghost" = initialSpace "s1"
    ∧ (∀ q ∈ (updateWhitelist [] (initialSpace "s1") ["ghost"]).whitelist,
        q.id ≠ "ghost") :=
  claim_C5_unresolved_rejected [] (initialSpace "s1") "ghost" ["ghost"] (by decide)

/-- Claim C6 (divergence witness): on a store holding the concrete hosted
(already private) space, the state-machine call `updateSpaceHost` rejects
the claim with `false`, yet `spaceClaimHandler` answers `isOK := true`
with a confirmation message — the handler discards the boolean instead of
translating it into `isOK := false`. -/
theorem claim_C6_handler_ignores_failure :
    (updateSpaceHost twoPlayerEnv hostedSpace (some "a")).2 = false
    ∧ (spaceClaimHandler twoPlayerEnv (fun _ => some hostedSpace)
        ⟨"t1", "s1", "a"⟩).1.isOK = true
    ∧ (spaceClaimHandler twoPlayerEnv (fun _ => some hostedSpace)
        ⟨"t1", "s1", "a"⟩).1.response = none := by
  refine ⟨by decide, rfl, rfl⟩

end CoveySpace
